import Mathlib

/-!
Shallow embedding of the PE-research query-to-report pipeline of
`research_engine.py` (class `PEResearchEngine`).

Modelling conventions:
* Python strings are Lean `String`s; all character-level operations
  (lower/upper-casing, stripping, slicing) are carried out on `String.data`
  (the list of code points), matching Python code-point semantics for the
  ASCII data the engine manipulates.
* External effects are oracles passed as function arguments:
  the Hugging Face backend `query_hf_model` is an oracle
  `hf : String → Nat → String` (prompt, max_tokens; it returns `""` on any
  failure, exactly as the Python wrapper catches every exception and
  returns `""`); the yfinance provider and the web fetcher are
  `Except`-valued oracles, an `error` outcome standing for a raised
  exception.
* Python dictionaries with a fixed key set (`financial_data`, yfinance
  `info`) are structures of `Option` fields; `none` models an absent key
  (or a `None` value, which the engine treats identically at every call
  site exercised by the claims).  Python truthiness tests
  `if data.get(k):` are translated as `none`/zero/empty tests.
* Numeric provider fields are exact rationals; CPython float formatting
  `f"{x:.1f}"` is modelled as exact decimal rounding half-to-even
  (`fmtFixed`), which agrees with CPython whenever the value is exactly
  representable (all values appearing in the claims are).
* All recursion is structural so every definition evaluates by `decide`
  or `rfl` in the kernel.
-/

set_option linter.unusedVariables false
set_option maxRecDepth 16384

/-! ## Python string primitives -/

/-- Python whitespace class `\s` / `str.strip()` character set (ASCII part). -/
def isPyWs (c : Char) : Bool :=
  c == ' ' || c == '\t' || c == '\n' || c == '\r' || c == '\x0b' || c == '\x0c'

/-- Regex word character `\w` (ASCII): letters, digits, underscore. -/
def isWordChar (c : Char) : Bool :=
  c.isAlpha || c.isDigit || c == '_'

/-- The capture character class `[A-Za-z0-9\s&.-]` of the company patterns. -/
def inCls (c : Char) : Bool :=
  c.isAlpha || c.isDigit || isPyWs c || c == '&' || c == '.' || c == '-'

/-- Python `str.lower()` (ASCII). -/
def pyLower (s : String) : String := String.mk (s.data.map Char.toLower)

/-- Python `str.upper()` (ASCII). -/
def pyUpper (s : String) : String := String.mk (s.data.map Char.toUpper)

/-- Python `str.strip()` with no argument: drop leading/trailing whitespace. -/
def pyStrip (s : String) : String :=
  String.mk (((s.data.dropWhile isPyWs).reverse.dropWhile isPyWs).reverse)

/-- Python `str.strip(chars)`: drop leading/trailing characters of `chars`. -/
def pyStripChars (chars : List Char) (s : String) : String :=
  String.mk (((s.data.dropWhile (chars.contains ·)).reverse.dropWhile (chars.contains ·)).reverse)

/-- Python slice `s[:n]` (by code points). -/
def pyTake (n : Nat) (s : String) : String := String.mk (s.data.take n)

/-- Python `s[-n:]` on a list (last `n` elements). -/
def lastN (n : Nat) (l : List α) : List α := l.drop (l.length - n)

/-- Python `', '.join(l)`. -/
def pyJoin (sep : String) : List String → String
  | [] => ""
  | [a] => a
  | a :: b :: t => a ++ sep ++ pyJoin sep (b :: t)

/-- Executable substring test (Python `sub in s`), needle-first on lists. -/
def containsList (needle : List Char) : List Char → Bool
  | [] => needle.isEmpty
  | c :: t => needle.isPrefixOf (c :: t) || containsList needle t

/-- Boolean form of Python `sub in s`. -/
def strContainsB (s sub : String) : Bool := containsList sub.data s.data

/-- `containsList` decides the infix relation. -/
theorem containsList_iff (needle : List Char) :
    ∀ hay, containsList needle hay = true ↔ needle <:+: hay := by
  intro hay
  induction hay with
  | nil =>
    simp [containsList, List.isEmpty_iff, List.infix_nil]
  | cons c t ih =>
    rw [containsList]
    rw [Bool.or_eq_true, List.isPrefixOf_iff_prefix, ih, List.infix_cons_iff]

/-- Propositional form of Python `sub in s`: `sub` occurs contiguously in `s`. -/
def strContains (s sub : String) : Prop := sub.data <:+: s.data

instance (s sub : String) : Decidable (strContains s sub) :=
  decidable_of_iff (strContainsB s sub = true) (containsList_iff sub.data s.data)

/-- `s` starts with `pre` (Python `s.startswith(pre)`). -/
def strStarts (s pre : String) : Prop := pre.data <+: s.data

instance (s pre : String) : Decidable (strStarts s pre) :=
  decidable_of_iff (pre.data.isPrefixOf s.data = true) List.isPrefixOf_iff_prefix

/-! ## Infrastructure lemmas for substring reasoning -/

theorem strContains_self (s : String) : strContains s s :=
  ⟨[], [], by simp⟩

theorem strContains_of_right {t sub : String} (s : String) (h : strContains t sub) :
    strContains (s ++ t) sub := by
  obtain ⟨p, q, hpq⟩ := h
  exact ⟨s.data ++ p, q, by rw [String.data_append, ← hpq]; simp⟩

theorem strContains_of_left {s sub : String} (t : String) (h : strContains s sub) :
    strContains (s ++ t) sub := by
  obtain ⟨p, q, hpq⟩ := h
  exact ⟨p, q ++ t.data, by rw [String.data_append, ← hpq]; simp⟩

theorem strStarts_append (pre t : String) : strStarts (pre ++ t) pre := by
  unfold strStarts
  rw [String.data_append]
  exact List.prefix_append pre.data t.data

theorem strStarts_of_starts {s pre : String} (t : String) (h : strStarts s pre) :
    strStarts (s ++ t) pre := by
  obtain ⟨q, hq⟩ := h
  exact ⟨q ++ t.data, by rw [String.data_append, ← hq]; simp⟩

theorem append_ne_empty {s : String} (t : String) (h : s.data ≠ []) : s ++ t ≠ "" := by
  intro hc
  have hd := congrArg String.data hc
  rw [String.data_append] at hd
  simp only [String.data] at hd
  rcases List.append_eq_nil.mp hd with ⟨h1, _⟩
  exact h h1

/-! ## Pattern matching of `extract_company_name` (lines 52-58)

The five `company_patterns` are Python regexes used with `re.search` and
`re.IGNORECASE`.  Four have the shape `kw\s+([A-Za-z0-9\s&.-]+?)(?:\s|$|\?)`
(a literal keyword, greedy whitespace, a lazy capture, a one-character
terminator); the second is `([A-Za-z0-9\s&.-]+)'s\s+` (greedy capture
followed by a possessive marker).  The matchers below implement exactly
`re.search`'s leftmost scan with its backtracking order. -/

/-- Case-insensitive literal match at the head; returns the rest on success. -/
def matchLitCI : List Char → List Char → Option (List Char)
  | [], cs => some cs
  | _ :: _, [] => none
  | k :: ks, c :: cs => if c.toLower == k.toLower then matchLitCI ks cs else none

/-- Lazy capture `([A-Za-z0-9\s&.-]+?)` followed by `(?:\s|$|\?)`: extend the
capture one class character at a time, stopping as soon as the terminator
matches (shortest match first, as `+?` backtracks). -/
def lazyCapAux (acc : List Char) : List Char → Option (List Char)
  | [] => none
  | c :: rest =>
    if inCls c then
      match rest with
      | [] => some (acc ++ [c])
      | d :: _ =>
        if isPyWs d || d == '?' then some (acc ++ [c])
        else lazyCapAux (acc ++ [c]) rest
    else none

/-- Greedy `\s+` before the capture: try consuming `t` whitespace characters
for `t` from the maximal run down to 1 (Python's backtracking order). -/
def wsBacktrack : Nat → List Char → Option (List Char)
  | 0, _ => none
  | t + 1, cs =>
    match lazyCapAux [] (cs.drop (t + 1)) with
    | some g => some g
    | none => wsBacktrack t cs

/-- `\s+` then the lazy capture, starting right after the keyword. -/
def tryWsCapture (cs : List Char) : Option (List Char) :=
  wsBacktrack ((cs.takeWhile isPyWs).length) cs

/-- `re.search` for `kw\s+([A-Za-z0-9\s&.-]+?)(?:\s|$|\?)`: scan start
positions left to right; at each, match the keyword case-insensitively and
then whitespace plus capture.  Returns `group(1)`. -/
def searchKw (kw : List Char) : List Char → Option (List Char)
  | [] => none
  | c :: rest =>
    match matchLitCI kw (c :: rest) with
    | some after =>
      match tryWsCapture after with
      | some g => some g
      | none => searchKw kw rest
    | none => searchKw kw rest

/-- `re.search` for `([A-Za-z0-9\s&.-]+)'s\s+`: at each start position in the
class, the greedy capture is forced to the maximal class run (shrinking it
puts a class character, never an apostrophe, at the boundary), after which
`'s` (case-insensitive) and at least one whitespace must follow. -/
def searchPoss : List Char → Option (List Char)
  | [] => none
  | c :: rest =>
    if inCls c then
      match (c :: rest).dropWhile inCls with
      | q :: s :: w :: _ =>
        if q == Char.ofNat 39 && (s == 's' || s == 'S') && isPyWs w then
          some ((c :: rest).takeWhile inCls)
        else searchPoss rest
      | _ => searchPoss rest
    else searchPoss rest

/-- The `company_patterns` list (lines 52-58), in source order. -/
def company_patterns : List (List Char → Option (List Char)) :=
  [searchKw "about".data,
   searchPoss,
   searchKw "analyze".data,
   searchKw "tell me about".data,
   searchKw "research".data]

/-- The `for pattern in company_patterns` loop: first pattern that matches. -/
def firstPatternMatch : List (List Char → Option (List Char)) → List Char → Option (List Char)
  | [], _ => none
  | p :: ps, cs =>
    match p cs with
    | some g => some g
    | none => firstPatternMatch ps cs

/-! ## Corporate-suffix cleanup (line 65)

`re.sub(r'\b(company|corp|corporation|inc|ltd|llc)\b', '', company,
flags=re.IGNORECASE)` followed by `.strip()`. -/

/-- The suffix-token alternatives, in the regex's alternation order. -/
def suffix_tokens : List (List Char) :=
  ["company".data, "corp".data, "corporation".data, "inc".data, "ltd".data, "llc".data]

/-- `\b` after a token (tokens end in a word character): end of string or a
non-word character. -/
def boundaryAfter : List Char → Bool
  | [] => true
  | d :: _ => !isWordChar d

/-- Try one alternation branch at the current position; returns the number of
characters consumed on success. -/
def tryTokLen (tok : List Char) (cs : List Char) : Option Nat :=
  match matchLitCI tok cs with
  | some rest => if boundaryAfter rest then some tok.length else none
  | none => none

/-- First alternation branch that matches (regex alternation is ordered). -/
def firstTokLen : List (List Char) → List Char → Option Nat
  | [], _ => none
  | t :: ts, cs =>
    match tryTokLen t cs with
    | some n => some n
    | none => firstTokLen ts cs

/-- `re.sub` scan.  `prevWord` records whether the previous character of the
original string was a word character (so `\b` holds iff it was not; tokens
start with word characters).  The fuel argument only makes the recursion
structural; it is initialised to the string length, an upper bound on the
number of steps since every step consumes at least one character. -/
def subTokensGo : Nat → Bool → List Char → List Char
  | 0, _, _ => []
  | _ + 1, _, [] => []
  | fuel + 1, prevWord, c :: rest =>
    match (if prevWord then none else firstTokLen suffix_tokens (c :: rest)) with
    | some n => subTokensGo fuel true ((c :: rest).drop n)
    | none => c :: subTokensGo fuel (isWordChar c) rest

/-- The `re.sub(...)` call of line 65 on a whole string. -/
def subTokens (cs : List Char) : List Char := subTokensGo cs.length false cs

/-- Line 63-65: `match.group(1).strip()`, then the suffix `re.sub`, then
`.strip()` again. -/
def cleanCompany (s : String) : String :=
  pyStrip (String.mk (subTokens (pyStrip s).data))

/-! ## `extract_company_name` (lines 42-68) -/

/-- The AI extraction prompt (line 45). -/
def extract_prompt (query : String) : String :=
  "Extract only the company name from this query: \x27" ++ query ++ "\x27\nCompany name:"

/-- `extract_company_name`: AI extraction first (accepted when non-empty and
shorter than 50 characters), else the ordered pattern fallback with suffix
cleanup, else the sentinel. `hf` is the `query_hf_model` oracle. -/
def extract_company_name (hf : String → Nat → String) (query : String) : String :=
  let ai_result := hf (extract_prompt query) 20
  if ai_result ≠ "" ∧ ai_result.length < 50 then pyStrip ai_result
  else
    match firstPatternMatch company_patterns query.data with
    | some g => cleanCompany (String.mk g)
    | none => "Unknown Company"

/-! ## Financial data (lines 70-105) -/

/-- The yfinance `stock.info` dictionary, restricted to the keys the engine
reads; `none` is an absent key (or a `None` value). -/
structure InfoDict where
  longName : Option String := none
  marketCap : Option ℚ := none
  totalRevenue : Option ℚ := none
  sector : Option String := none
  industry : Option String := none
  fullTimeEmployees : Option Nat := none
  website : Option String := none
  longBusinessSummary : Option String := none
  currentPrice : Option ℚ := none
  trailingPE : Option ℚ := none
  profitMargins : Option ℚ := none
  revenueGrowth : Option ℚ := none
  city : Option String := none
  state : Option String := none
  country : Option String := none

/-- The `financial_data` dictionary built by `get_financial_data`.  A present
`error` field models the exception branch's `{'error': ...}` dictionary, in
which every other key is absent. -/
structure FinData where
  error : Option String := none
  ticker : Option String := none
  company_name : Option String := none
  market_cap : Option ℚ := none
  revenue : Option ℚ := none
  sector : Option String := none
  industry : Option String := none
  employees : Option Nat := none
  website : Option String := none
  business_summary : Option String := none
  current_price : Option ℚ := none
  pe_ratio : Option ℚ := none
  profit_margin : Option ℚ := none
  revenue_growth : Option ℚ := none
  headquarters : Option String := none

/-- The static `ticker_map` (lines 74-79), in source order. -/
def ticker_map : List (String × String) :=
  [("apple", "AAPL"), ("microsoft", "MSFT"), ("google", "GOOGL"),
   ("amazon", "AMZN"), ("tesla", "TSLA"), ("meta", "META"),
   ("netflix", "NFLX"), ("nvidia", "NVDA"), ("facebook", "META"),
   ("alphabet", "GOOGL"), ("ford", "F"), ("general motors", "GM")]

/-- Line 80: `ticker_map.get(company_name.lower(), company_name.upper())`. -/
def resolveTicker (company_name : String) : String :=
  (ticker_map.lookup (pyLower company_name)).getD (pyUpper company_name)

/-- Lines 85-100 (success) and 104-105 (exception branch): build the
`financial_data` dictionary from the provider response for `ticker`. -/
def finFromProvider (company_name ticker : String) (res : Except String InfoDict) : FinData :=
  match res with
  | .ok info =>
    { ticker := some ticker
      company_name := some (info.longName.getD company_name)
      market_cap := info.marketCap
      revenue := info.totalRevenue
      sector := info.sector
      industry := info.industry
      employees := info.fullTimeEmployees
      website := info.website
      business_summary := info.longBusinessSummary
      current_price := info.currentPrice
      pe_ratio := info.trailingPE
      profit_margin := info.profitMargins
      revenue_growth := info.revenueGrowth
      headquarters := some (pyStripChars [',', ' ']
        (info.city.getD "" ++ ", " ++ info.state.getD "" ++ " " ++ info.country.getD "")) }
  | .error e => { error := some ("Could not retrieve financial data: " ++ e) }

/-- `get_financial_data` (lines 70-105): resolve the ticker, query the
provider oracle, degrade any provider exception to an error dictionary. -/
def get_financial_data (provider : String → Except String InfoDict) (company_name : String) :
    FinData :=
  finFromProvider company_name (resolveTicker company_name) (provider (resolveTicker company_name))

/-! ## Number formatting (`format_financial_data`, lines 194-225) -/

/-- CPython `f"{q:.{prec}f}"` on the exact rational `q`: decimal rounding
half-to-even, implemented with `Nat` arithmetic on numerator/denominator so
that it evaluates in the kernel. -/
def fmtFixed (prec : Nat) (q : ℚ) : String :=
  let sign := if q < 0 then "-" else ""
  let scaled := q.num.natAbs * 10 ^ prec
  let d := q.den
  let quot := scaled / d
  let rem := scaled % d
  let r := if 2 * rem < d then quot
           else if d < 2 * rem then quot + 1
           else if quot % 2 = 0 then quot else quot + 1
  let ip := r / 10 ^ prec
  let fp := r % 10 ^ prec
  let fpStr := toString fp
  let pad := String.mk (List.replicate (prec - fpStr.length) '0')
  if prec = 0 then sign ++ toString ip
  else sign ++ toString ip ++ "." ++ pad ++ fpStr

/-- Group reversed digit list in threes with commas (helper for `{n:,}`). -/
def groupRev : List Char → List Char
  | a :: b :: c :: d :: rest => a :: b :: c :: ',' :: groupRev (d :: rest)
  | l => l

/-- CPython `f"{n:,}"`: thousands separators. -/
def groupThousands (n : Nat) : String :=
  String.mk (groupRev (toString n).data.reverse).reverse

/-- `format_financial_data` (lines 194-225).  Each `if data.get(k):` guard is
the Python truthiness of the field: absent/`None`, zero, or empty string all
skip the bullet. -/
def format_financial_data (data : FinData) : String :=
  match data.error with
  | some err => "**Financial Data:** " ++ err
  | none =>
    "**Financial Highlights:**\n"
    ++ (match data.market_cap with
        | some v => if v ≠ 0 then "- Market Cap: $" ++ fmtFixed 1 (v / 1000000000) ++ "B\n" else ""
        | none => "")
    ++ (match data.revenue with
        | some v => if v ≠ 0 then "- Annual Revenue: $" ++ fmtFixed 1 (v / 1000000000) ++ "B\n" else ""
        | none => "")
    ++ (match data.current_price with
        | some v => if v ≠ 0 then "- Stock Price: $" ++ fmtFixed 2 v ++ "\n" else ""
        | none => "")
    ++ (match data.pe_ratio with
        | some v => if v ≠ 0 then "- P/E Ratio: " ++ fmtFixed 1 v ++ "\n" else ""
        | none => "")
    ++ (match data.profit_margin with
        | some v => if v ≠ 0 then "- Profit Margin: " ++ fmtFixed 1 (v * 100) ++ "%\n" else ""
        | none => "")
    ++ (match data.employees with
        | some n => if n ≠ 0 then "- Employees: " ++ groupThousands n ++ "\n" else ""
        | none => "")
    ++ (match data.headquarters with
        | some s => if s ≠ "" then "- Headquarters: " ++ s ++ "\n" else ""
        | none => "")

/-! ## Web scraping (`scrape_company_info`, lines 107-128) -/

/-- Line 112: the single search URL (spaces become underscores). -/
def wiki_url (company_name : String) : String :=
  "https://en.wikipedia.org/wiki/"
    ++ String.mk (company_name.data.map (fun c => if c == ' ' then '_' else c))

/-- `scrape_company_info`: the fetch oracle models
`get_website_text_content` (`.error` = raised exception, `.ok none` =
returned `None`).  Content is accepted only when truthy and longer than 100
characters, then truncated to 2000 characters; every failure path yields the
sentinel.  The function is total: it never raises. -/
def scrape_company_info (fetch : String → Except String (Option String))
    (company_name : String) : String :=
  let url := wiki_url company_name
  let scraped_content :=
    match fetch url with
    | .ok (some content) =>
      if content ≠ "" ∧ content.length > 100 then
        "\n\nSource: " ++ url ++ "\n" ++ pyTake 2000 content ++ "..."
      else ""
    | .ok none => ""
    | .error _ => ""
  if scraped_content ≠ "" then scraped_content else "No additional web content found."

/-! ## Competitor analysis (lines 130-192) -/

/-- The static `competitors_db` (lines 164-171), in source order. -/
def competitors_db : List (String × List String) :=
  [("Technology", ["Apple", "Microsoft", "Google", "Amazon", "Meta"]),
   ("Automotive", ["Tesla", "Ford", "General Motors", "Toyota", "Volkswagen"]),
   ("Financial Services", ["JPMorgan Chase", "Bank of America", "Wells Fargo", "Goldman Sachs"]),
   ("Healthcare", ["Johnson & Johnson", "Pfizer", "UnitedHealth", "Merck"]),
   ("Consumer Discretionary", ["Amazon", "Nike", "Home Depot", "McDonald\x27s"]),
   ("Energy", ["ExxonMobil", "Chevron", "ConocoPhillips", "BP"])]

/-- Line 174: the filtered, capped competitor list. -/
def competitorShortlist (company_name sector : String) : List String :=
  (((competitors_db.lookup sector).getD []).filter
    (fun c => pyLower c != pyLower company_name)).take 5

/-- `generate_basic_competitor_analysis` (lines 162-192): the non-AI fallback
template.  `competitors_text` is the `', '.join` of the shortlist; when it is
empty the template states that analysis requires additional research. -/
def generate_basic_competitor_analysis (company_name sector industry : String) : String :=
  let competitors_text := pyJoin ", " (competitorShortlist company_name sector)
  "**Competitive Analysis for " ++ company_name ++ "**\n\n**Sector:** " ++ sector
  ++ "\n**Industry:** " ++ industry ++ "\n\n"
  ++ ("**Key Competitors:** "
      ++ (if competitors_text ≠ "" then competitors_text else "Analysis requires additional research"))
  ++ ("\n\n**Market Position:** " ++ company_name ++ " operates in the " ++ sector
      ++ " sector within the " ++ industry
      ++ " industry. Competitive positioning depends on market share, innovation capabilities, and operational efficiency.\n\n**Competitive Factors:**\n- Brand recognition and customer loyalty\n- Product/service differentiation\n- Pricing strategy and cost structure\n- Distribution channels and market reach\n- Technology and innovation capabilities\n\n*Note: Detailed competitive analysis requires current market data and industry reports.*")

/-- The AI competitor-analysis prompt (lines 137-149). -/
def comp_prompt (company_name sector industry : String) : String :=
  "Analyze the competitive landscape for " ++ company_name ++ " in the " ++ sector
  ++ " sector, specifically in " ++ industry ++ ".\n\nCompany: " ++ company_name
  ++ "\nSector: " ++ sector ++ "\nIndustry: " ++ industry
  ++ "\n\nProvide a comprehensive competitor analysis including:\n1. Direct competitors\n2. Market positioning\n3. Competitive advantages\n4. Market share considerations\n\nAnalysis:"

/-- `generate_competitor_analysis` (lines 130-160): AI first, static fallback
when the backend returns nothing.  (`.get(k, 'Unknown')` on the profile keys
is `Option.getD`; nothing inside the body can raise once the oracles are
total, so the `except` branch of line 159 is unreachable in the model.) -/
def generate_competitor_analysis (hf : String → Nat → String) (company_data : FinData) : String :=
  let sector := company_data.sector.getD "Unknown"
  let industry := company_data.industry.getD "Unknown"
  let company_name := company_data.company_name.getD "Unknown"
  let ai_result := hf (comp_prompt company_name sector industry) 600
  if ai_result ≠ "" then ai_result
  else generate_basic_competitor_analysis company_name sector industry

/-! ## Structured fallback synthesis (`generate_structured_analysis`, lines 315-351) -/

/-- `generate_structured_analysis`: the deterministic report template.
`web_content` is a parameter the template never uses, as in the source. -/
def generate_structured_analysis (company_name : String) (financial_data : FinData)
    (competitor_analysis : String) (web_content : String) : String :=
  let formatted_financials := format_financial_data financial_data
  "## Company Overview\n" ++ company_name
  ++ " is a company operating in the " ++ financial_data.sector.getD "various"
  ++ " sector, specifically in the " ++ financial_data.industry.getD "multiple industries"
  ++ " space.\n\n"
  ++ formatted_financials
  ++ "\n\n## Key Competitors\n"
  ++ competitor_analysis
  ++ "\n\n## Investment Considerations\n\n### Strengths\n- Established market presence in "
  ++ financial_data.sector.getD "their sector"
  ++ "\n- "
  ++ (match financial_data.market_cap with
      | some v =>
        if v ≠ 0 then "Market capitalization of $" ++ fmtFixed 1 (v / 1000000000) ++ "B"
        else "Significant market position"
      | none => "Significant market position")
  ++ "\n- "
  ++ (match financial_data.revenue with
      | some v =>
        if v ≠ 0 then "Revenue of $" ++ fmtFixed 1 (v / 1000000000) ++ "B annually"
        else "Established revenue streams"
      | none => "Established revenue streams")
  ++ "\n\n### Challenges\n- Competitive market environment\n- Industry-specific regulatory considerations\n- Market volatility and economic factors\n\n### Opportunities\n- Sector growth potential\n- Strategic expansion possibilities\n- Operational efficiency improvements\n\n## PE Relevance\nThis analysis provides foundational data for Private Equity evaluation. Key considerations include:\n- Financial performance metrics\n- Market position and competitive landscape\n- Growth potential and scalability\n- Operational improvement opportunities\n\n*Note: This analysis is based on available public data. Detailed due diligence would require additional proprietary information and market research.*"

/-! ## The orchestrator (`analyze_company`, lines 227-313) -/

/-- One chat turn (`{"role": ..., "content": ...}`). -/
structure Msg where
  role : String
  content : String

/-- Minimal `json.dumps` rendering used only to assemble the AI context
prompt (string escaping and float formatting are not modelled; the context
string feeds exclusively the `hf` oracle, so no claim depends on it). -/
def json_str (s : String) : String := "\"" ++ s ++ "\""

def json_opt_str : Option String → String
  | some s => json_str s
  | none => "null"

def json_rat (q : ℚ) : String :=
  if q.den = 1 then toString q.num else toString q.num ++ "/" ++ toString q.den

def json_opt_rat : Option ℚ → String
  | some q => json_rat q
  | none => "null"

def json_opt_nat : Option Nat → String
  | some n => toString n
  | none => "null"

def json_dumps_fin (d : FinData) : String :=
  match d.error with
  | some e => "\x7b\n  \"error\": " ++ json_str e ++ "\n\x7d"
  | none =>
    "\x7b\n  \"ticker\": " ++ json_opt_str d.ticker
    ++ ",\n  \"company_name\": " ++ json_opt_str d.company_name
    ++ ",\n  \"market_cap\": " ++ json_opt_rat d.market_cap
    ++ ",\n  \"revenue\": " ++ json_opt_rat d.revenue
    ++ ",\n  \"sector\": " ++ json_opt_str d.sector
    ++ ",\n  \"industry\": " ++ json_opt_str d.industry
    ++ ",\n  \"employees\": " ++ json_opt_nat d.employees
    ++ ",\n  \"website\": " ++ json_opt_str d.website
    ++ ",\n  \"business_summary\": " ++ json_opt_str d.business_summary
    ++ ",\n  \"current_price\": " ++ json_opt_rat d.current_price
    ++ ",\n  \"pe_ratio\": " ++ json_opt_rat d.pe_ratio
    ++ ",\n  \"profit_margin\": " ++ json_opt_rat d.profit_margin
    ++ ",\n  \"revenue_growth\": " ++ json_opt_rat d.revenue_growth
    ++ ",\n  \"headquarters\": " ++ json_opt_str d.headquarters
    ++ "\n\x7d"

def json_dumps_hist (l : List Msg) : String :=
  match l with
  | [] => "[]"
  | _ =>
    "[\n"
    ++ pyJoin ",\n" (l.map (fun m =>
        "  \x7b\n    \"role\": " ++ json_str m.role
        ++ ",\n    \"content\": " ++ json_str m.content ++ "\n  \x7d"))
    ++ "\n]"

/-- The follow-up keywords of lines 234-237 (`is_followup` is computed and
then never used by the source; it is kept for fidelity). -/
def followup_keywords : List String :=
  ["more", "tell me more", "continue", "what about", "also", "additionally"]

def is_followup (query : String) (chat_history : List Msg) : Bool :=
  decide (chat_history.length > 0)
    && followup_keywords.any (fun k => strContainsB (pyLower query) k)

/-- The context bundle of lines 249-257 (a triple-quoted f-string with its
12-space indentation). -/
def mk_context (company_name : String) (financial_data : FinData)
    (web_content competitor_analysis query : String) (chat_history : List Msg) : String :=
  "\n            Company: " ++ company_name
  ++ "\n            Financial Data: " ++ json_dumps_fin financial_data
  ++ "\n            Web Content: " ++ pyTake 1000 web_content ++ "..."
  ++ "\n            Competitor Analysis: " ++ competitor_analysis
  ++ "\n            \n            User Query: " ++ query
  ++ "\n            Chat History: "
  ++ (if chat_history.isEmpty then "None" else json_dumps_hist (lastN 5 chat_history))
  ++ "\n            "

/-- The synthesis prompt of lines 260-273. -/
def analysis_prompt (context : String) : String :=
  "As a Private Equity research analyst, provide comprehensive company analysis for investment considerations.\n\n"
  ++ context
  ++ "\n\nStructure your response with clear sections:\n- Company Overview\n- Financial Highlights  \n- Key Competitors\n- Investment Considerations (Strengths, Challenges, Opportunities)\n- PE Relevance\n\nProvide professional, detailed analysis focused on PE investment considerations. Use markdown formatting with clear headings and bullet points.\n\nAnalysis:"

/-- The stage methods `analyze_company` dispatches to on `self`.  Each is
`Except`-valued: an `error` outcome models a Python exception escaping that
call (the claims quantify over arbitrary stage behaviour, including all
stages throwing); `concreteStages` below instantiates them with the
non-raising concrete embeddings. -/
structure Stages where
  extract_company_name : String → Except String String
  get_financial_data : String → Except String FinData
  scrape_company_info : String → Except String String
  generate_competitor_analysis : FinData → Except String String
  query_hf_model : String → Nat → Except String String
  generate_structured_analysis : String → FinData → String → String → Except String String

/-- The body of the `try:` block of `analyze_company` (lines 229-287): the
sequenced pipeline; any stage exception short-circuits to the outer handler. -/
def analyzeTry (st : Stages) (query : String) (chat_history : List Msg) : Except String String :=
  match st.extract_company_name query with
  | .error e => .error e
  | .ok company_name =>
    let _unused_is_followup := is_followup query chat_history
    match st.get_financial_data company_name with
    | .error e => .error e
    | .ok financial_data =>
      match st.scrape_company_info company_name with
      | .error e => .error e
      | .ok web_content =>
        match st.generate_competitor_analysis financial_data with
        | .error e => .error e
        | .ok competitor_analysis =>
          let context :=
            mk_context company_name financial_data web_content competitor_analysis query chat_history
          match st.query_hf_model (analysis_prompt context) 1200 with
          | .error e => .error e
          | .ok ai0 =>
            match (if ai0 = "" then
                     st.generate_structured_analysis company_name financial_data
                       competitor_analysis web_content
                   else .ok ai0) with
            | .error e => .error e
            | .ok ai_analysis =>
              if financial_data.error.isNone then
                .ok ("# " ++ (financial_data.company_name.getD company_name
                      ++ (" - PE Research Analysis\n\n" ++ ai_analysis)))
              else
                .ok ("# " ++ (company_name
                      ++ (" - PE Research Analysis\n\n" ++ ai_analysis)))

/-- Lines 290-294: the best-effort company name of the error handler
(re-attempted extraction with any further failure swallowed). -/
def bestEffortName (st : Stages) (query : String) : String :=
  match st.extract_company_name query with
  | .ok n => n
  | .error _ => "the requested company"

/-- The user-facing error report of lines 296-313. -/
def analysisErrorReport (extracted_name e : String) : String :=
  "**Analysis Error**\n\nI encountered an issue while researching "
  ++ (extracted_name
  ++ (":\n\n**Error Details:** "
  ++ (e
  ++ ("\n\n**Possible Solutions:**\n- Check if the company name is spelled correctly\n- Try using the full company name or stock ticker\n- Ensure the company is publicly traded or well-known\n- Rephrase your question\n\n"
  ++ ("**Example Queries:**\n- \"Tell me about Apple\"\n- \"Analyze Tesla\x27s market position\" \n- \"Who are Microsoft\x27s competitors?\"\n\nPlease try again with a different approach.")))))

/-- `analyze_company` (lines 227-313): run the pipeline; the outer
`try/except` converts any escaped exception into the error report.  Total:
every path returns a string. -/
def analyze_company (st : Stages) (query : String) (chat_history : List Msg) : String :=
  match analyzeTry st query chat_history with
  | .ok response => response
  | .error e => analysisErrorReport (bestEffortName st query) e

/-- External-effect oracles of the concrete engine. -/
structure Oracles where
  hf : String → Nat → String
  provider : String → Except String InfoDict
  webFetch : String → Except String (Option String)

/-- The concrete stage dispatch: each method is the non-raising embedding
above (every concrete stage catches its own failures internally, so it is
wrapped in `.ok`). -/
def concreteStages (o : Oracles) : Stages where
  extract_company_name query := .ok (extract_company_name o.hf query)
  get_financial_data name := .ok (get_financial_data o.provider name)
  scrape_company_info name := .ok (scrape_company_info o.webFetch name)
  generate_competitor_analysis d := .ok (generate_competitor_analysis o.hf d)
  query_hf_model p m := .ok (o.hf p m)
  generate_structured_analysis n d c w := .ok (generate_structured_analysis n d c w)

/-! ## Auxiliary lemmas -/

theorem data_ne_nil {s : String} (h : s ≠ "") : s.data ≠ [] := by
  intro hc
  apply h
  cases s
  simp_all

theorem ne_empty_of_length_pos {s : String} (h : 0 < s.length) : s ≠ "" := by
  intro hc
  rw [hc] at h
  simp at h

theorem append_data_ne_nil {s : String} (t : String) (h : s.data ≠ []) :
    (s ++ t).data ≠ [] := by
  rw [String.data_append]
  intro hc
  rcases List.append_eq_nil.mp hc with ⟨h1, _⟩
  exact h h1

/-! ## Claim C7 -/

/-- Claim C7: every identifier whose lowercase form is a key of the static
name-to-ticker map makes `get_financial_data` query the provider with the
mapped ticker (so `tesla`, `Tesla`, `TESLA` all resolve to `TSLA`), and every
identifier not in the map is uppercased and used as a literal ticker guess. -/
theorem c7_ticker_resolution :
    resolveTicker "tesla" = "TSLA" ∧ resolveTicker "Tesla" = "TSLA"
    ∧ resolveTicker "TESLA" = "TSLA"
    ∧ (∀ name t, ticker_map.lookup (pyLower name) = some t →
        resolveTicker name = t
        ∧ ∀ provider, get_financial_data provider name = finFromProvider name t (provider t))
    ∧ (∀ name, ticker_map.lookup (pyLower name) = none →
        resolveTicker name = pyUpper name
        ∧ ∀ provider,
            get_financial_data provider name
              = finFromProvider name (pyUpper name) (provider (pyUpper name))) := by
  refine ⟨by decide, by decide, by decide, ?_, ?_⟩
  · intro name t h
    have hr : resolveTicker name = t := by unfold resolveTicker; rw [h]; rfl
    exact ⟨hr, fun provider => by unfold get_financial_data; rw [hr]⟩
  · intro name h
    have hr : resolveTicker name = pyUpper name := by unfold resolveTicker; rw [h]; rfl
    exact ⟨hr, fun provider => by unfold get_financial_data; rw [hr]⟩

/-- Witness for C7: a mapped name and an unmapped name, resolved concretely. -/
theorem c7_ticker_resolution_witness :
    resolveTicker "Ford" = "F" ∧ resolveTicker "Plugh" = "PLUGH" :=
  ⟨(c7_ticker_resolution.2.2.2.1 "Ford" "F" (by decide)).1,
   (c7_ticker_resolution.2.2.2.2 "Plugh" (by decide)).1⟩

/-! ## Claim C9 -/

/-- Claim C9: `scrape_company_info` (a total function: it never raises)
returns the sentinel whenever the fetched content is absent (exception or
`None`) or not strictly longer than 100 characters, and otherwise includes
at most the first 2000 characters of the content. -/
theorem c9_scrape_contract (fetch : String → Except String (Option String))
    (company_name : String) :
    (∀ e, fetch (wiki_url company_name) = .error e →
      scrape_company_info fetch company_name = "No additional web content found.")
    ∧ (fetch (wiki_url company_name) = .ok none →
      scrape_company_info fetch company_name = "No additional web content found.")
    ∧ (∀ c, fetch (wiki_url company_name) = .ok (some c) → c.length ≤ 100 →
      scrape_company_info fetch company_name = "No additional web content found.")
    ∧ (∀ c, fetch (wiki_url company_name) = .ok (some c) → 100 < c.length →
      scrape_company_info fetch company_name
        = "\n\nSource: " ++ wiki_url company_name ++ "\n" ++ pyTake 2000 c ++ "...") := by
  refine ⟨?_, ?_, ?_, ?_⟩
  · intro e h
    simp [scrape_company_info, h]
  · intro h
    simp [scrape_company_info, h]
  · intro c h hlen
    have hcond : ¬ (c ≠ "" ∧ c.length > 100) := by
      rintro ⟨_, hgt⟩
      omega
    simp [scrape_company_info, h, hcond]
  · intro c h hlen
    have h1 : c ≠ "" := ne_empty_of_length_pos (by omega)
    have hbig : ("\n\nSource: " ++ wiki_url company_name ++ "\n" ++ pyTake 2000 c ++ "...") ≠ "" :=
      append_ne_empty _ (append_data_ne_nil _ (append_data_ne_nil _ (append_data_ne_nil _ (by decide))))
    simp [scrape_company_info, h, h1, hlen, hbig]

/-- Witness for C9: a fetch returning `None` yields the sentinel. -/
theorem c9_scrape_contract_witness :
    scrape_company_info (fun _ => Except.ok none) "Apple"
      = "No additional web content found." :=
  (c9_scrape_contract (fun _ => Except.ok none) "Apple").2.1 rfl

/-! ## Claim C10 -/

/-- Claim C10 (implicit): `format_financial_data` omits the bullet for any
field whose value is falsy, not only absent ones — explicit zero market cap,
profit margin, P/E ratio, employee count, or an empty headquarters string
render exactly as if the field were missing. -/
theorem c10_falsy_fields_skip_bullets (d : FinData) :
    format_financial_data
      { d with error := none, market_cap := some 0, profit_margin := some 0,
               pe_ratio := some 0, employees := some 0, headquarters := some "" }
    = format_financial_data
      { d with error := none, market_cap := none, profit_margin := none,
               pe_ratio := none, employees := none, headquarters := none } := by
  unfold format_financial_data
  simp

/-! ## Claim C8 -/

theorem fmt_market_cap_bullet (d : FinData) (v : ℚ) (herr : d.error = none)
    (hmc : d.market_cap = some v) (hv : v ≠ 0) :
    strContains (format_financial_data d)
      ("- Market Cap: $" ++ fmtFixed 1 (v / 1000000000) ++ "B\n") := by
  simp only [format_financial_data, herr, hmc]
  rw [if_pos hv]
  iterate 6 apply strContains_of_left
  exact strContains_of_right _ (strContains_self _)

theorem fmt_revenue_bullet (d : FinData) (v : ℚ) (herr : d.error = none)
    (hrv : d.revenue = some v) (hv : v ≠ 0) :
    strContains (format_financial_data d)
      ("- Annual Revenue: $" ++ fmtFixed 1 (v / 1000000000) ++ "B\n") := by
  simp only [format_financial_data, herr, hrv]
  rw [if_pos hv]
  iterate 5 apply strContains_of_left
  exact strContains_of_right _ (strContains_self _)

theorem fmt_margin_bullet (d : FinData) (v : ℚ) (herr : d.error = none)
    (hpm : d.profit_margin = some v) (hv : v ≠ 0) :
    strContains (format_financial_data d)
      ("- Profit Margin: " ++ fmtFixed 1 (v * 100) ++ "%\n") := by
  simp only [format_financial_data, herr, hpm]
  rw [if_pos hv]
  iterate 2 apply strContains_of_left
  exact strContains_of_right _ (strContains_self _)

theorem fmt_employees_bullet (d : FinData) (n : Nat) (herr : d.error = none)
    (hem : d.employees = some n) (hn : n ≠ 0) :
    strContains (format_financial_data d)
      ("- Employees: " ++ groupThousands n ++ "\n") := by
  simp only [format_financial_data, herr, hem]
  rw [if_pos hn]
  iterate 1 apply strContains_of_left
  exact strContains_of_right _ (strContains_self _)

/-- Claim C8: a profile without `error` and with `market_cap = 3000000000`
renders the exact bullet `- Market Cap: $3.0B` (value divided by 10^9, one
decimal place, nothing appended before the newline); in general market cap
and revenue render in billions to one decimal place, profit-margin fractions
as percentages to one decimal place, and employee counts with thousands
separators. -/
theorem c8_numeric_formatting :
    strContains (format_financial_data { market_cap := some 3000000000 }) "- Market Cap: $3.0B\n"
    ∧ strContains (format_financial_data { profit_margin := some (1/4) })
        "- Profit Margin: 25.0%\n"
    ∧ strContains (format_financial_data { employees := some 164000 }) "- Employees: 164,000\n"
    ∧ (∀ (d : FinData) (v : ℚ), d.error = none → d.market_cap = some v → v ≠ 0 →
        strContains (format_financial_data d)
          ("- Market Cap: $" ++ fmtFixed 1 (v / 1000000000) ++ "B\n"))
    ∧ (∀ (d : FinData) (v : ℚ), d.error = none → d.revenue = some v → v ≠ 0 →
        strContains (format_financial_data d)
          ("- Annual Revenue: $" ++ fmtFixed 1 (v / 1000000000) ++ "B\n"))
    ∧ (∀ (d : FinData) (v : ℚ), d.error = none → d.profit_margin = some v → v ≠ 0 →
        strContains (format_financial_data d)
          ("- Profit Margin: " ++ fmtFixed 1 (v * 100) ++ "%\n"))
    ∧ (∀ (d : FinData) (n : Nat), d.error = none → d.employees = some n → n ≠ 0 →
        strContains (format_financial_data d)
          ("- Employees: " ++ groupThousands n ++ "\n")) := by
  refine ⟨?_, ?_, by decide, fmt_market_cap_bullet, fmt_revenue_bullet,
          fmt_margin_bullet, fmt_employees_bullet⟩
  · have h := fmt_market_cap_bullet { market_cap := some 3000000000 } 3000000000 rfl rfl
      (by norm_num)
    rw [show ((3000000000 : ℚ) / 1000000000) = 3 by norm_num] at h
    rw [show fmtFixed 1 (3 : ℚ) = "3.0" by decide] at h
    exact h
  · have h := fmt_margin_bullet { profit_margin := some (1/4) } (1/4) rfl rfl (by norm_num)
    rw [show ((1/4 : ℚ) * 100) = 25 by norm_num] at h
    rw [show fmtFixed 1 (25 : ℚ) = "25.0" by decide] at h
    exact h

/-- Witness for C8: the symbolic bullet clauses applied at concrete profiles. -/
theorem c8_numeric_formatting_witness :
    strContains (format_financial_data { revenue := some 5000000000 })
      ("- Annual Revenue: $" ++ fmtFixed 1 ((5000000000 : ℚ) / 1000000000) ++ "B\n")
    ∧ strContains (format_financial_data { employees := some 7000 })
      ("- Employees: " ++ groupThousands 7000 ++ "\n") :=
  ⟨c8_numeric_formatting.2.2.2.2.1 { revenue := some 5000000000 } 5000000000 rfl rfl
      (by norm_num),
   c8_numeric_formatting.2.2.2.2.2.2 { employees := some 7000 } 7000 rfl rfl (by decide)⟩

/-! ## Claim C4 -/

theorem pyJoin_cons_ne_empty (sep a : String) (t : List String) (ha : a ≠ "") :
    pyJoin sep (a :: t) ≠ "" := by
  cases t with
  | nil => simpa [pyJoin] using ha
  | cons b t' =>
    show a ++ sep ++ pyJoin sep (b :: t') ≠ ""
    exact append_ne_empty _ (append_data_ne_nil _ (data_ne_nil ha))

theorem filter_lower_ne_nil {l : List String} {a b : String} (ha : a ∈ l) (hb : b ∈ l)
    (hab : pyLower a ≠ pyLower b) (key : String) :
    l.filter (fun c => pyLower c != key) ≠ [] := by
  intro hnil
  have h' := List.filter_eq_nil_iff.mp hnil
  have ha' := h' a ha
  have hb' := h' b hb
  simp only [bne_iff_ne, ne_eq, not_not] at ha' hb'
  exact hab (ha'.trans hb'.symm)

theorem join_shortlist_ne_empty {l : List String} (key : String)
    (hfil : l.filter (fun c => pyLower c != key) ≠ [])
    (hel : ∀ c ∈ l, c ≠ "") :
    pyJoin ", " ((l.filter (fun c => pyLower c != key)).take 5) ≠ "" := by
  obtain ⟨x, t', hx⟩ := List.exists_cons_of_ne_nil hfil
  rw [hx, List.take_succ_cons]
  apply pyJoin_cons_ne_empty
  apply hel
  have hxmem : x ∈ l.filter (fun c => pyLower c != key) := by
    rw [hx]; exact List.mem_cons_self x t'
  exact List.mem_of_mem_filter hxmem

theorem sector_join_ne_empty (key : String) (l : List String) (a b : String)
    (ha : a ∈ l) (hb : b ∈ l) (hab : pyLower a ≠ pyLower b) (hel : ∀ c ∈ l, c ≠ "") :
    pyJoin ", " ((l.filter (fun c => pyLower c != key)).take 5) ≠ "" :=
  join_shortlist_ne_empty key (filter_lower_ne_nil ha hb hab key) hel

theorem shortlist_of_lookup (company_name sector : String) (l : List String)
    (hl : competitors_db.lookup sector = some l) :
    competitorShortlist company_name sector
      = (l.filter (fun c => pyLower c != pyLower company_name)).take 5 := by
  unfold competitorShortlist
  rw [hl]
  rfl

/-- Claim C4: in the non-AI competitor fallback, a sector present in the
static table yields a shortlist of at most 5 competitors, none of which
matches the subject company case-insensitively, joined into non-empty text
that appears after the Key Competitors label; a sector absent from the table
yields the explicit additional-research notice. -/
theorem c4_competitor_fallback (company_name sector industry : String) :
    (∀ l, competitors_db.lookup sector = some l →
      (competitorShortlist company_name sector).length ≤ 5
      ∧ (∀ c ∈ competitorShortlist company_name sector, pyLower c ≠ pyLower company_name)
      ∧ pyJoin ", " (competitorShortlist company_name sector) ≠ ""
      ∧ strContains (generate_basic_competitor_analysis company_name sector industry)
          ("**Key Competitors:** " ++ pyJoin ", " (competitorShortlist company_name sector)))
    ∧ (competitors_db.lookup sector = none →
        strContains (generate_basic_competitor_analysis company_name sector industry)
          "**Key Competitors:** Analysis requires additional research") := by
  constructor
  · intro l hl
    have hs := shortlist_of_lookup company_name sector l hl
    have hjoin : pyJoin ", " (competitorShortlist company_name sector) ≠ "" := by
      rw [hs]
      by_cases h1 : sector = "Technology"
      · subst h1
        have hl' : l = ["Apple", "Microsoft", "Google", "Amazon", "Meta"] := by
          have := hl
          simp [competitors_db, List.lookup] at this
          exact this.symm
        subst hl'
        exact sector_join_ne_empty _ _ "Apple" "Microsoft" (by decide) (by decide)
          (by decide) (by decide)
      by_cases h2 : sector = "Automotive"
      · subst h2
        have hl' : l = ["Tesla", "Ford", "General Motors", "Toyota", "Volkswagen"] := by
          have := hl
          simp [competitors_db, List.lookup] at this
          exact this.symm
        subst hl'
        exact sector_join_ne_empty _ _ "Tesla" "Ford" (by decide) (by decide)
          (by decide) (by decide)
      by_cases h3 : sector = "Financial Services"
      · subst h3
        have hl' : l = ["JPMorgan Chase", "Bank of America", "Wells Fargo", "Goldman Sachs"] := by
          have := hl
          simp [competitors_db, List.lookup] at this
          exact this.symm
        subst hl'
        exact sector_join_ne_empty _ _ "JPMorgan Chase" "Bank of America" (by decide) (by decide)
          (by decide) (by decide)
      by_cases h4 : sector = "Healthcare"
      · subst h4
        have hl' : l = ["Johnson & Johnson", "Pfizer", "UnitedHealth", "Merck"] := by
          have := hl
          simp [competitors_db, List.lookup] at this
          exact this.symm
        subst hl'
        exact sector_join_ne_empty _ _ "Johnson & Johnson" "Pfizer" (by decide) (by decide)
          (by decide) (by decide)
      by_cases h5 : sector = "Consumer Discretionary"
      · subst h5
        have hl' : l = ["Amazon", "Nike", "Home Depot", "McDonald\x27s"] := by
          have := hl
          simp [competitors_db, List.lookup] at this
          exact this.symm
        subst hl'
        exact sector_join_ne_empty _ _ "Amazon" "Nike" (by decide) (by decide)
          (by decide) (by decide)
      by_cases h6 : sector = "Energy"
      · subst h6
        have hl' : l = ["ExxonMobil", "Chevron", "ConocoPhillips", "BP"] := by
          have := hl
          simp [competitors_db, List.lookup] at this
          exact this.symm
        subst hl'
        exact sector_join_ne_empty _ _ "ExxonMobil" "Chevron" (by decide) (by decide)
          (by decide) (by decide)
      · exfalso
        simp [competitors_db, List.lookup, beq_eq_false_iff_ne.mpr h1,
          beq_eq_false_iff_ne.mpr h2, beq_eq_false_iff_ne.mpr h3,
          beq_eq_false_iff_ne.mpr h4, beq_eq_false_iff_ne.mpr h5,
          beq_eq_false_iff_ne.mpr h6] at hl
    refine ⟨?_, ?_, hjoin, ?_⟩
    · rw [hs, List.length_take]
      exact min_le_left _ _
    · intro c hc
      rw [hs] at hc
      have hc2 := List.of_mem_filter (List.mem_of_mem_take hc)
      simpa [bne_iff_ne] using hc2
    · simp only [generate_basic_competitor_analysis]
      rw [if_pos hjoin]
      apply strContains_of_left
      exact strContains_of_right _ (strContains_self _)
  · intro hl
    have hsl : competitorShortlist company_name sector = [] := by
      unfold competitorShortlist
      rw [hl]
      rfl
    simp only [generate_basic_competitor_analysis, hsl]
    rw [if_neg (by simp [pyJoin])]
    apply strContains_of_left
    exact strContains_of_right _ (strContains_self _)

/-- Witness for C4: a tabled sector with a subject company in its own list,
and an untabled sector. -/
theorem c4_competitor_fallback_witness :
    pyJoin ", " (competitorShortlist "Apple" "Technology") ≠ ""
    ∧ strContains (generate_basic_competitor_analysis "Nemo" "Zoology" "Fish")
        "**Key Competitors:** Analysis requires additional research" :=
  ⟨((c4_competitor_fallback "Apple" "Technology" "Consumer Electronics").1
      ["Apple", "Microsoft", "Google", "Amazon", "Meta"] rfl).2.2.1,
   (c4_competitor_fallback "Nemo" "Zoology" "Fish").2 rfl⟩

/-! ## Claim C5 -/

/-- Claim C5: with the AI extraction returning the empty string,
`extract_company_name` resolves "Tell me about Apple" to "Apple" through the
pattern fallback, and any query matched by none of the five patterns yields
the sentinel "Unknown Company" (the function is total: it never raises). -/
theorem c5_pattern_extraction (hf : String → Nat → String)
    (hA : hf (extract_prompt "Tell me about Apple") 20 = "") :
    extract_company_name hf "Tell me about Apple" = "Apple"
    ∧ (∀ query, hf (extract_prompt query) 20 = "" →
        (∀ p ∈ company_patterns, p query.data = none) →
        extract_company_name hf query = "Unknown Company") := by
  constructor
  · simp only [extract_company_name, hA]
    rw [if_neg (by simp)]
    decide
  · intro query hq hnone
    simp only [extract_company_name, hq]
    rw [if_neg (by simp)]
    have h1 := hnone (searchKw "about".data) (by simp [company_patterns])
    have h2 := hnone searchPoss (by simp [company_patterns])
    have h3 := hnone (searchKw "analyze".data) (by simp [company_patterns])
    have h4 := hnone (searchKw "tell me about".data) (by simp [company_patterns])
    have h5 := hnone (searchKw "research".data) (by simp [company_patterns])
    simp [firstPatternMatch, company_patterns, h1, h2, h3, h4, h5]

/-- Witness for C5: the backend stub returning `""`, on the named query and
on a query no pattern matches. -/
theorem c5_pattern_extraction_witness :
    extract_company_name (fun _ _ => "") "Tell me about Apple" = "Apple"
    ∧ extract_company_name (fun _ _ => "") "hello there friend" = "Unknown Company" :=
  ⟨(c5_pattern_extraction (fun _ _ => "") rfl).1,
   (c5_pattern_extraction (fun _ _ => "") rfl).2 "hello there friend" rfl (by decide)⟩

/-! ## Claim C6 -/

/-- Counterexample to C6: when the AI extraction succeeds (here returning
"Apple Inc", non-empty and under 50 characters), `extract_company_name`
returns it with the corporate suffix intact — the suffix stripping (whose
result would be "Apple") is not applied on the AI path. -/
theorem c6_counterexample :
    extract_company_name (fun _ _ => "Apple Inc") "Tell me about Apple" = "Apple Inc"
    ∧ cleanCompany "Apple Inc" = "Apple"
    ∧ extract_company_name (fun _ _ => "Apple Inc") "Tell me about Apple"
        ≠ cleanCompany (extract_company_name (fun _ _ => "Apple Inc") "Tell me about Apple") :=
  ⟨rfl, by decide, by decide⟩

/-- Claim C6 as amended: the corporate-suffix tokens are stripped (following
a strip, with a final strip) only on the pattern-fallback path, applied to
the captured group; when the AI extraction succeeds the trimmed AI result is
returned without suffix stripping; when nothing matches the sentinel is
returned unstripped. -/
theorem c6_amended (hf : String → Nat → String) (query : String) :
    (hf (extract_prompt query) 20 ≠ "" → (hf (extract_prompt query) 20).length < 50 →
      extract_company_name hf query = pyStrip (hf (extract_prompt query) 20))
    ∧ (hf (extract_prompt query) 20 = "" →
        ∀ g, firstPatternMatch company_patterns query.data = some g →
          extract_company_name hf query = cleanCompany (String.mk g))
    ∧ (hf (extract_prompt query) 20 = "" →
        firstPatternMatch company_patterns query.data = none →
        extract_company_name hf query = "Unknown Company") := by
  refine ⟨?_, ?_, ?_⟩
  · intro hne hlen
    simp only [extract_company_name]
    rw [if_pos ⟨hne, hlen⟩]
  · intro hq g hg
    simp only [extract_company_name, hq]
    rw [if_neg (by simp)]
    rw [hg]
  · intro hq hg
    simp only [extract_company_name, hq]
    rw [if_neg (by simp)]
    rw [hg]

/-- Witness for C6 (amended): a successful AI path returning an unstripped
name, and a pattern path applying the cleanup to the captured group. -/
theorem c6_amended_witness :
    extract_company_name (fun _ _ => "Tesla Corp") "analyze Nvidia" = pyStrip "Tesla Corp"
    ∧ extract_company_name (fun _ _ => "") "analyze Nvidia" = cleanCompany "Nvidia" :=
  ⟨(c6_amended (fun _ _ => "Tesla Corp") "analyze Nvidia").1 (by decide) (by decide),
   (c6_amended (fun _ _ => "") "analyze Nvidia").2.1 rfl "Nvidia".data rfl⟩

/-! ## Claim C3 -/

/-- The error profile produced by a deterministically failing provider. -/
def c3FinErr : FinData := { error := some "Could not retrieve financial data: boom" }

/-- The fallback report the pipeline produces for that profile with the AI
backend returning nothing: the competitor text is the static fallback (on an
error profile every profile key is absent, so sector, industry and company
name all default to "Unknown") and the web content is the scrape sentinel. -/
def c3Report : String :=
  generate_structured_analysis "Apple" c3FinErr
    (generate_basic_competitor_analysis "Unknown" "Unknown" "Unknown")
    "No additional web content found."

/-- Counterexample to C3: the fallback report for a failed provider does not
contain the "Financial Highlights" heading — the error notice replaces the
entire financial section — so it does not contain all five mandatory section
headings.  (It also fabricates no market-capitalization figure.) -/
theorem c3_counterexample :
    ¬ strContains c3Report "Financial Highlights"
    ∧ ¬ strContains c3Report "Market capitalization of $" := by
  constructor <;> decide

/-- Claim C3 as amended: with an `error`-bearing profile the fallback report
still contains the Company Overview, Key Competitors, Investment
Considerations (with Strengths/Challenges/Opportunities) and PE Relevance
headings, and the explicit financial-data-unavailable notice
`**Financial Data:** <error>` standing in place of the Financial Highlights
section; the strengths bullets degrade to the generic non-numeric texts when
market cap and revenue are absent. -/
theorem c3_amended (name compText webText err : String) (d : FinData) (r : String)
    (hd : d.error = some err)
    (hr : r = generate_structured_analysis name d compText webText) :
    format_financial_data d = "**Financial Data:** " ++ err
    ∧ strContains r "## Company Overview"
    ∧ strContains r ("**Financial Data:** " ++ err)
    ∧ strContains r "## Key Competitors"
    ∧ strContains r "## Investment Considerations"
    ∧ strContains r "### Strengths"
    ∧ strContains r "### Challenges"
    ∧ strContains r "### Opportunities"
    ∧ strContains r "## PE Relevance"
    ∧ (d.market_cap = none → strContains r "Significant market position")
    ∧ (d.revenue = none → strContains r "Established revenue streams") := by
  subst hr
  have hfmt : format_financial_data d = "**Financial Data:** " ++ err := by
    unfold format_financial_data
    rw [hd]
  refine ⟨hfmt, ?_, ?_, ?_, ?_, ?_, ?_, ?_, ?_, ?_, ?_⟩
  all_goals simp only [generate_structured_analysis]
  · iterate 16 apply strContains_of_left
    decide
  · iterate 9 apply strContains_of_left
    apply strContains_of_right
    rw [hfmt]
    exact strContains_self _
  · iterate 8 apply strContains_of_left
    apply strContains_of_right
    decide
  · iterate 6 apply strContains_of_left
    apply strContains_of_right
    decide
  · iterate 6 apply strContains_of_left
    apply strContains_of_right
    decide
  · apply strContains_of_right
    decide
  · apply strContains_of_right
    decide
  · apply strContains_of_right
    decide
  · intro hmc
    iterate 3 apply strContains_of_left
    apply strContains_of_right
    rw [hmc]
    exact strContains_self _
  · intro hrev
    iterate 1 apply strContains_of_left
    apply strContains_of_right
    rw [hrev]
    exact strContains_self _

/-- Witness for C3 (amended): the amended theorem applied at the concrete
failed-provider report. -/
theorem c3_amended_witness :
    format_financial_data c3FinErr
        = "**Financial Data:** " ++ "Could not retrieve financial data: boom"
    ∧ strContains c3Report "## PE Relevance" := by
  have h := c3_amended "Apple"
    (generate_basic_competitor_analysis "Unknown" "Unknown" "Unknown")
    "No additional web content found." "Could not retrieve financial data: boom"
    c3FinErr c3Report rfl rfl
  exact ⟨h.1, h.2.2.2.2.2.2.2.2.1⟩

/-! ## Claims C1 and C2 -/

/-- Every successful pipeline body yields a string of the fixed heading
shape of lines 282-287. -/
theorem analyzeTry_ok_shape (st : Stages) (query : String) (chat_history : List Msg)
    (r : String) (h : analyzeTry st query chat_history = .ok r) :
    ∃ n ai, r = "# " ++ (n ++ (" - PE Research Analysis\n\n" ++ ai)) := by
  simp only [analyzeTry] at h
  split at h
  · exact absurd h (by simp)
  · split at h
    · exact absurd h (by simp)
    · split at h
      · exact absurd h (by simp)
      · split at h
        · exact absurd h (by simp)
        · split at h
          · exact absurd h (by simp)
          · split at h
            · exact absurd h (by simp)
            · split at h
              · exact ⟨_, _, (Except.ok.inj h).symm⟩
              · exact ⟨_, _, (Except.ok.inj h).symm⟩

/-- The stage record with a throwing financial stage used to exercise the
outer boundary. -/
def c1ErrStages : Stages :=
  { extract_company_name := fun _ => .ok "Widgets"
    get_financial_data := fun _ => .error "kaput"
    scrape_company_info := fun _ => .ok ""
    generate_competitor_analysis := fun _ => .ok ""
    query_hf_model := fun _ _ => .ok ""
    generate_structured_analysis := fun _ _ _ _ => .ok "" }

/-- An all-successful stage record. -/
def c1OkStages : Stages :=
  { extract_company_name := fun _ => .ok "Acme"
    get_financial_data := fun _ => .ok {}
    scrape_company_info := fun _ => .ok "No additional web content found."
    generate_competitor_analysis := fun _ => .ok "comp"
    query_hf_model := fun _ _ => .ok "AI analysis body"
    generate_structured_analysis := fun n d c w => .ok (generate_structured_analysis n d c w) }

/-- Counterexample to C1: on the outer-boundary error path (here the
financial stage throwing `kaput`), the returned report neither begins with
`# ` nor contains "PE Research Analysis". -/
theorem c1_counterexample :
    ¬ strStarts (analyze_company c1ErrStages "Tell me about Widgets" []) "# "
    ∧ ¬ strContains (analyze_company c1ErrStages "Tell me about Widgets" [])
        "PE Research Analysis" := by
  constructor <;> decide

/-- Claim C1 as amended: `analyze_company` always returns a non-empty
string; when the pipeline body completes without reaching the outer
exception boundary the result begins with `# ` and contains
"PE Research Analysis"; on the outer-boundary error path it instead begins
with `**Analysis Error**`. -/
theorem c1_amended (st : Stages) (query : String) (chat_history : List Msg) :
    analyze_company st query chat_history ≠ ""
    ∧ (∀ r, analyzeTry st query chat_history = .ok r →
        strStarts (analyze_company st query chat_history) "# "
        ∧ strContains (analyze_company st query chat_history) "PE Research Analysis")
    ∧ (∀ e, analyzeTry st query chat_history = .error e →
        strStarts (analyze_company st query chat_history) "**Analysis Error**") := by
  refine ⟨?_, ?_, ?_⟩
  · rcases ht : analyzeTry st query chat_history with e | r
    · rw [analyze_company, ht]
      exact append_ne_empty _ (by decide)
    · obtain ⟨n, ai, rfl⟩ := analyzeTry_ok_shape st query chat_history r ht
      rw [analyze_company, ht]
      exact append_ne_empty _ (by decide)
  · intro r ht
    obtain ⟨n, ai, rfl⟩ := analyzeTry_ok_shape st query chat_history r ht
    constructor
    · rw [analyze_company, ht]
      exact strStarts_append _ _
    · rw [analyze_company, ht]
      apply strContains_of_right
      apply strContains_of_right
      apply strContains_of_left
      decide
  · intro e ht
    rw [analyze_company, ht]
    apply strStarts_of_starts
    decide

/-- Witness for C1 (amended): the success clause at an all-successful stage
record. -/
theorem c1_amended_witness :
    strStarts (analyze_company c1OkStages "Tell me about Acme" []) "# "
    ∧ strContains (analyze_company c1OkStages "Tell me about Acme" [])
        "PE Research Analysis" :=
  (c1_amended c1OkStages "Tell me about Acme" []).2.1
    ("# " ++ ("Acme" ++ (" - PE Research Analysis\n\n" ++ "AI analysis body"))) rfl

/-- Claim C2: `analyze_company` is total (the Lean embedding returns a
`String` on every path, mirroring the outer `try/except`), and when a stage
exception reaches the outer boundary the returned report is exactly the
error report built from the best-effort company name — the re-attempted
extraction with any further failure swallowed into the fixed fallback
name — and contains that name, the error message, the remediation
suggestions and the example queries. -/
theorem c2_error_isolation (st : Stages) (query : String) (chat_history : List Msg) :
    (∀ e, analyzeTry st query chat_history = .error e →
      analyze_company st query chat_history
          = analysisErrorReport (bestEffortName st query) e
      ∧ strContains (analyze_company st query chat_history) (bestEffortName st query)
      ∧ strContains (analyze_company st query chat_history) e
      ∧ strContains (analyze_company st query chat_history) "**Possible Solutions:**"
      ∧ strContains (analyze_company st query chat_history) "**Example Queries:**"
      ∧ strContains (analyze_company st query chat_history) "Tell me about Apple")
    ∧ (∀ n, st.extract_company_name query = .ok n → bestEffortName st query = n)
    ∧ (∀ e, st.extract_company_name query = .error e →
        bestEffortName st query = "the requested company") := by
  refine ⟨?_, ?_, ?_⟩
  · intro e he
    rw [analyze_company, he]
    refine ⟨rfl, ?_, ?_, ?_, ?_, ?_⟩
    · apply strContains_of_right
      apply strContains_of_left
      exact strContains_self _
    · apply strContains_of_right
      apply strContains_of_right
      apply strContains_of_right
      apply strContains_of_left
      exact strContains_self _
    · iterate 4 apply strContains_of_right
      apply strContains_of_left
      decide
    · iterate 5 apply strContains_of_right
      decide
    · iterate 5 apply strContains_of_right
      decide
  · intro n hn
    unfold bestEffortName
    rw [hn]
  · intro e he
    unfold bestEffortName
    rw [he]

/-- The stage record of the C2 witness: extraction succeeds, the financial
stage throws. -/
def c2Stages : Stages :=
  { extract_company_name := fun _ => .ok "Testco"
    get_financial_data := fun _ => .error "boom"
    scrape_company_info := fun _ => .ok ""
    generate_competitor_analysis := fun _ => .ok ""
    query_hf_model := fun _ _ => .ok ""
    generate_structured_analysis := fun _ _ _ _ => .ok "" }

/-- Witness for C2: a concrete throwing pipeline converted into the error
report for the re-extracted name. -/
theorem c2_error_isolation_witness :
    analyze_company c2Stages "research Testco" [] = analysisErrorReport "Testco" "boom"
    ∧ strContains (analyze_company c2Stages "research Testco" []) "**Possible Solutions:**" := by
  have h := (c2_error_isolation c2Stages "research Testco" []).1 "boom" rfl
  exact ⟨h.1, h.2.2.2.1⟩
